import Mathlib

/-!
# ScannerWidget: a shallow embedding of `src/gui/imp/scannerwidget.cpp`

The widget is modelled as a state record that is passed explicitly through each
member function.  The collaborators that the file only calls (the sensor
interface `OpenNiInterface`, the `ReconstructionInterface`, `PcdInputIterator`,
`tools::copyRecursively`, the file system) are represented by

* a trace of the calls made on them, in order, and
* an environment `Env` / `FsOutcomes` giving the results they hand back.

Qt library behaviour used by the code (`QVariant::toBool`, `QSettings::setValue`
and `sync`, `QCheckBox::setChecked` emitting `stateChanged`) is written out as
small definitions of its documented behaviour.
-/

namespace ScannerWidget

/-! ## Qt values -/

/-- The value of `Qt::Unchecked`. -/
def Qt.Unchecked : Int := 0

/-- The value of `Qt::PartiallyChecked`. -/
def Qt.PartiallyChecked : Int := 1

/-- The value of `Qt::Checked`. -/
def Qt.Checked : Int := 2

/-- The scalar values a settings key can hold (`QVariant`), `invalid` being what
`QSettings::value` returns for a key that is not there. -/
inductive QVariant where
  | invalid
  | bool (b : Bool)
  | int (i : Int)
  | str (s : String)
  deriving DecidableEq, Repr

/-- `QVariant::toBool`: a number is true when non-zero, a string is true unless its
lower-case content is empty, "0" or "false", an invalid variant is false. -/
def QVariant.toBool : QVariant → Bool
  | .invalid => false
  | .bool b => b
  | .int i => i != 0
  | .str s => !(s.toLower == "" || s.toLower == "0" || s.toLower == "false")

/-- `QVariant::toString`. -/
def QVariant.toString : QVariant → String
  | .invalid => ""
  | .bool b => if b then "true" else "false"
  | .int i => ToString.toString i
  | .str s => s

/-- A settings store: key (written `GROUP/KEY`) to value. -/
abbrev Store := String → QVariant

/-! ## Widgets -/

/-- The ten check boxes created by `initializeMainInterface`. -/
inductive CheckBox where
  | recCheck
  | streamFromCheck
  | recToPclDataCheck
  | undistCheck
  | bilateralCheck
  | reconstructCheck
  | undistrtionCheck
  | bilateralFilterCheck
  | statFilterCheck
  | mlsFilterCheck
  deriving DecidableEq, Repr

/-- The push buttons created by `initializeMainInterface`. -/
inductive Button where
  | makeProjectButton
  | openProjectButton
  | initButton
  | takeImagesButton
  | takeOpImagesButton
  | takeOneOpImageButton
  | saveDataButton
  | drawScene3dModelButton
  deriving DecidableEq, Repr

/-! ## Calls on the collaborators -/

/-- One call made by the widget on a collaborator, recorded in program order. -/
inductive Event where
  /-- `new QSettings(settingsPath, QSettings::IniFormat, this)` -/
  | newSettings (path : String)
  /-- `settings->setValue(key, v)` -/
  | setValue (key : String) (v : QVariant)
  /-- `settings->sync()` -/
  | sync
  /-- `openniInterface->deleteLater()`, with the value `isInit()` had on the object
  that is being discarded -/
  | deleteLater (wasInit : Bool)
  /-- `new OpenNiInterface(this, settings)` -/
  | newOpenNiInterface
  /-- `new ReconstructionInterface(this, settings)` -/
  | newReconstructionInterface
  /-- `reconstructionInterface->reloadSettings()` -/
  | reconReloadSettings
  /-- `reconstructionInterface->slot_perform_reconstruction()` -/
  | reconPerformReconstruction
  | initialize_interface
  | shutdown_interface
  | start_stream
  | start_rotation_stream
  | take_long_images
  | take_one_long_image
  | save_long_image_data
  /-- `std::this_thread::sleep_for(std::chrono::milliseconds(ms))` -/
  | sleep_for (ms : Nat)
  deriving DecidableEq, Repr

/-- Results handed back by the collaborators whose code is not in this file. -/
structure Env where
  /-- value of `isInit()` once `initialize_interface()` has returned -/
  initSucceeds : Bool
  /-- value of `isInit()` once `shutdown_interface()` has returned -/
  initAfterShutdown : Bool
  /-- `PcdInputIterator::getLowerBound()` -/
  lowerBound : Int
  /-- `PcdInputIterator::getUpperBound()` -/
  upperBound : Int

/-- The members of `ScannerWidget` that the slots read and write. -/
structure State where
  /-- `settingsPath` -/
  settingsPath : String
  /-- what the object behind `settings` holds in memory -/
  settings : Store
  /-- the settings files on disk, by path -/
  disk : String → Store
  /-- `openniInterface->isInit()` -/
  isInit : Bool
  /-- the text shown by each button -/
  text : Button → String
  /-- whether a check box is enabled (`!isDisabled`) -/
  enabled : CheckBox → Bool
  /-- `isChecked()` of each check box -/
  checked : CheckBox → Bool
  /-- the window title -/
  windowTitle : String
  /-- whether the debug layout (all widgets) is the one installed -/
  debugInterface : Bool
  /-- calls made so far, oldest first -/
  trace : List Event

/-- The calls a step added to the trace. -/
def newCalls (s s' : State) : List Event :=
  s'.trace.drop s.trace.length

/-- Append one call to the trace. -/
def call (e : Event) (s : State) : State :=
  { s with trace := s.trace ++ [e] }

/-! ## Settings store operations (`QSettings`) -/

/-- `settings->value(key)`. -/
def value (key : String) (s : State) : QVariant :=
  s.settings key

/-- `settings->setValue(key, v)`. -/
def setValue (key : String) (v : QVariant) (s : State) : State :=
  call (.setValue key v) { s with settings := Function.update s.settings key v }

/-- `settings->sync()`: the file at `settingsPath` now holds what is in memory. -/
def sync (s : State) : State :=
  call .sync { s with disk := Function.update s.disk s.settingsPath s.settings }

/-! ## Check box slots (lines 380-408) -/

/-- `ScannerWidget::slot_record_stream`. -/
def slot_record_stream (state : Int) (s : State) : State :=
  sync (setValue "STREAM_SETTINGS/ENABLE_STREAM_RECORDING" (.bool (state != Qt.Unchecked)) s)

/-- `ScannerWidget::slot_replay_recording`. -/
def slot_replay_recording (state : Int) (s : State) : State :=
  sync (setValue "STREAM_SETTINGS/ENABLE_REPLAY_RECORD_STREAM" (.bool (state != Qt.Unchecked)) s)

/-- `ScannerWidget::slot_record_pcd`. -/
def slot_record_pcd (state : Int) (s : State) : State :=
  sync (setValue "STREAM_SETTINGS/ENABLE_CONVERT_TO_PCD" (.bool (state != Qt.Unchecked)) s)

/-- `ScannerWidget::slot_use_undistortion`. -/
def slot_use_undistortion (state : Int) (s : State) : State :=
  sync (setValue "STREAM_SETTINGS/ENABLE_UNDISTORTION" (.bool (state != Qt.Unchecked)) s)

/-- `ScannerWidget::slot_use_bilateral`. -/
def slot_use_bilateral (state : Int) (s : State) : State :=
  sync (setValue "STREAM_SETTINGS/ENABLE_BILATERAL_FILTER" (.bool (state != Qt.Unchecked)) s)

/-- The `connect(..., SIGNAL(stateChanged(int)), this, SLOT(...))` lines of
`initializeMainInterface` (lines 95-99): the slot each check box is wired to, if any. -/
def stateChangedSlot : CheckBox → Option (Int → State → State)
  | .recCheck => some slot_record_stream
  | .streamFromCheck => some slot_replay_recording
  | .recToPclDataCheck => some slot_record_pcd
  | .undistCheck => some slot_use_undistortion
  | .bilateralCheck => some slot_use_bilateral
  | .reconstructCheck => none
  | .undistrtionCheck => none
  | .bilateralFilterCheck => none
  | .statFilterCheck => none
  | .mlsFilterCheck => none

/-- Emission of `stateChanged(state)` by a check box: the connected slot runs. -/
def emitStateChanged (c : CheckBox) (state : Int) (s : State) : State :=
  match stateChangedSlot c with
  | some slot => slot state s
  | none => s

/-- `QCheckBox::setChecked(b)`: nothing happens when the box already is in that
state; otherwise the state changes and `stateChanged` is emitted with the new
check state. -/
def setChecked (c : CheckBox) (b : Bool) (s : State) : State :=
  if s.checked c = b then s
  else emitStateChanged c (if b then Qt.Checked else Qt.Unchecked)
    { s with checked := Function.update s.checked c b }

/-- The user clicking a check box: its checked state is inverted. -/
def toggle (c : CheckBox) (s : State) : State :=
  setChecked c (!s.checked c) s

/-- `QWidget::setDisabled(b)` on a check box. -/
def setDisabled (c : CheckBox) (b : Bool) (s : State) : State :=
  { s with enabled := Function.update s.enabled c (!b) }

/-- `QPushButton::setText`. -/
def setText (b : Button) (t : String) (s : State) : State :=
  { s with text := Function.update s.text b t }

/-- The settings key whose value `initializeMainInterfaceSettings` loads into a
check box (lines 55-65). -/
def settingsKey : CheckBox → String
  | .recCheck => "STREAM_SETTINGS/ENABLE_STREAM_RECORDING"
  | .streamFromCheck => "STREAM_SETTINGS/ENABLE_REPLAY_RECORD_STREAM"
  | .recToPclDataCheck => "STREAM_SETTINGS/ENABLE_CONVERT_TO_PCD"
  | .undistCheck => "STREAM_SETTINGS/ENABLE_UNDISTORTION"
  | .bilateralCheck => "STREAM_SETTINGS/ENABLE_BILATERAL_FILTER"
  | .reconstructCheck => "PIPELINE_SETTINGS/ENABLE_RECONSTRUCTION"
  | .undistrtionCheck => "PIPELINE_SETTINGS/UNDISTORTION"
  | .bilateralFilterCheck => "PIPELINE_SETTINGS/OPENCV_BILATERAL_FILTER"
  | .statFilterCheck => "PIPELINE_SETTINGS/STATISTICAL_OUTLIER_REMOVAL_FILTER"
  | .mlsFilterCheck => "PIPELINE_SETTINGS/MOVING_LEAST_SQUARES_FILTER"

/-! ## The sensor and reconstruction interfaces

`OpenNiInterface` and `ReconstructionInterface` are declared elsewhere; this file
only calls them.  Each call is recorded in the trace.  What `isInit()` answers
after `initialize_interface()` and after `shutdown_interface()` is a parameter
(`Env`). -/

/-- Modelled from the spec: the constructor of `OpenNiInterface` is not in this file.
The spec describes the streaming session as an on/off state held by the sensor
interface; a newly constructed interface has it off, so `isInit()` is false. -/
def newOpenNiInterface (s : State) : State :=
  call .newOpenNiInterface { s with isInit := false }

/-- `openniInterface->initialize_interface()`; `isInit()` afterwards is
`env.initSucceeds`. -/
def initialize_interface (env : Env) (s : State) : State :=
  call .initialize_interface { s with isInit := env.initSucceeds }

/-- `openniInterface->shutdown_interface()`; `isInit()` afterwards is
`env.initAfterShutdown`. -/
def shutdown_interface (env : Env) (s : State) : State :=
  call .shutdown_interface { s with isInit := env.initAfterShutdown }

/-- Modelled from the spec: `OpenNiInterface::start_stream` is not in this file; the
spec lists it as an operation that begins a capture mode.  It is recorded as a
call and leaves `isInit()` as it is. -/
def start_stream (s : State) : State :=
  call .start_stream s

/-- Modelled from the spec: `OpenNiInterface::start_rotation_stream`, as `start_stream`. -/
def start_rotation_stream (s : State) : State :=
  call .start_rotation_stream s

/-- Modelled from the spec: `OpenNiInterface::take_long_images`, as `start_stream`. -/
def take_long_images (s : State) : State :=
  call .take_long_images s

/-- Modelled from the spec: `OpenNiInterface::take_one_long_image`, as `start_stream`. -/
def take_one_long_image (s : State) : State :=
  call .take_one_long_image s

/-- Modelled from the spec: `OpenNiInterface::save_long_image_data`, as `start_stream`. -/
def save_long_image_data (s : State) : State :=
  call .save_long_image_data s

/-- `std::this_thread::sleep_for(std::chrono::milliseconds(ms))`. -/
def sleep_for (ms : Nat) (s : State) : State :=
  call (.sleep_for ms) s

/-! ## Initialisation (lines 24-109) -/

/-- `ScannerWidget::initializeSettings`.  The new `QSettings` object holds what the
file at `settingsPath` holds. -/
def initializeSettings (env : Env) (s : State) : State :=
  let s := call (.newSettings s.settingsPath) { s with settings := s.disk s.settingsPath }
  if (value "READING_SETTING/AUTO_SET_RANGE" s).toBool then
    let s := setValue "READING_SETTING/FROM" (.int env.lowerBound) s
    let s := setValue "READING_SETTING/TO" (.int env.upperBound) s
    sync s
  else s

/-- `ScannerWidget::initializeReconstruction`. -/
def initializeReconstruction (s : State) : State :=
  let s := newOpenNiInterface s
  call .newReconstructionInterface s

/-- `ScannerWidget::initializeMainInterfaceSettings`. -/
def initializeMainInterfaceSettings (s : State) : State :=
  let s := setChecked .recCheck (value "STREAM_SETTINGS/ENABLE_STREAM_RECORDING" s).toBool s
  let s := setChecked .streamFromCheck (value "STREAM_SETTINGS/ENABLE_REPLAY_RECORD_STREAM" s).toBool s
  let s := setChecked .recToPclDataCheck (value "STREAM_SETTINGS/ENABLE_CONVERT_TO_PCD" s).toBool s
  let s := setChecked .undistCheck (value "STREAM_SETTINGS/ENABLE_UNDISTORTION" s).toBool s
  let s := setChecked .bilateralCheck (value "STREAM_SETTINGS/ENABLE_BILATERAL_FILTER" s).toBool s
  let s := setChecked .reconstructCheck (value "PIPELINE_SETTINGS/ENABLE_RECONSTRUCTION" s).toBool s
  let s := setChecked .undistrtionCheck (value "PIPELINE_SETTINGS/UNDISTORTION" s).toBool s
  let s := setChecked .bilateralFilterCheck (value "PIPELINE_SETTINGS/OPENCV_BILATERAL_FILTER" s).toBool s
  let s := setChecked .statFilterCheck
    (value "PIPELINE_SETTINGS/STATISTICAL_OUTLIER_REMOVAL_FILTER" s).toBool s
  setChecked .mlsFilterCheck (value "PIPELINE_SETTINGS/MOVING_LEAST_SQUARES_FILTER" s).toBool s

/-- The text each button is constructed with in `initializeMainInterface`. -/
def constructedText : Button → String
  | .makeProjectButton => "Make Project"
  | .openProjectButton => "Open Project"
  | .initButton => "Start Stream"
  | .takeImagesButton => "Start Rotation Stream"
  | .takeOpImagesButton => "Take Long Images"
  | .takeOneOpImageButton => "Take One Long Image"
  | .saveDataButton => "Save Long Image Data"
  | .drawScene3dModelButton => "Perform Reconstruction"

/-- `ScannerWidget::initializeMainInterface`: every widget is created anew, so the
buttons carry their constructor text and the check boxes are enabled and
unchecked.  (The signal connections it makes are `stateChangedSlot` and
`press` below.) -/
def initializeMainInterface (s : State) : State :=
  { s with text := constructedText, enabled := fun _ => true, checked := fun _ => false }

/-- `ScannerWidget::reloadSettings`. -/
def reloadSettings (env : Env) (s : State) : State :=
  let s := initializeSettings env s
  let s := call (.deleteLater s.isInit) s
  let s := newOpenNiInterface s
  let s := call .reconReloadSettings s
  initializeMainInterfaceSettings s

/-- `ScannerWidget::slot_open_project`, given the path the file dialog returned. -/
def slot_open_project (env : Env) (tempSettingsPath : String) (s : State) : State :=
  if tempSettingsPath.isEmpty = false then
    let s := { s with settingsPath := tempSettingsPath }
    let s := initializeSettings env s
    let s := initializeReconstruction s
    let s := { s with windowTitle := "Project: " ++ (value "PROJECT_SETTINGS/NAME" s).toString }
    let s := initializeMainInterface s
    let s := initializeMainInterfaceSettings s
    if (value "PROJECT_SETTINGS/DEBUG_INTERFACE" s).toBool then
      { s with debugInterface := true }
    else
      { s with debugInterface := false }
  else s

/-! ## Button slots (lines 273-378) -/

/-- `ScannerWidget::slot_start_stream`. -/
def slot_start_stream (env : Env) (s : State) : State :=
  if !s.isInit then
    let s := reloadSettings env s
    let s := initialize_interface env s
    if s.isInit then
      let s := setDisabled .recCheck true s
      let s := setDisabled .streamFromCheck true s
      let s := setDisabled .recToPclDataCheck true s
      let s := setText .initButton "Stop Stream" s
      start_stream s
    else s
  else
    let s := shutdown_interface env s
    let s := setDisabled .recCheck false s
    let s := setDisabled .streamFromCheck false s
    let s := setDisabled .recToPclDataCheck false s
    setText .initButton "Start Stream" s

/-- `ScannerWidget::slot_start_rotation_stream`. -/
def slot_start_rotation_stream (env : Env) (s : State) : State :=
  if !s.isInit then
    let s := reloadSettings env s
    let s := initialize_interface env s
    if s.isInit then
      let s := setDisabled .recCheck true s
      let s := setDisabled .streamFromCheck true s
      let s := setDisabled .recToPclDataCheck true s
      let s := setText .takeImagesButton "Stop Rotation Stream" s
      start_rotation_stream s
    else s
  else
    let s := shutdown_interface env s
    let s := setDisabled .recCheck false s
    let s := setDisabled .streamFromCheck false s
    let s := setDisabled .recToPclDataCheck false s
    setText .takeImagesButton "Start Rotation Stream" s

/-- `ScannerWidget::slot_take_long_images`. -/
def slot_take_long_images (env : Env) (s : State) : State :=
  if !s.isInit then
    let s := reloadSettings env s
    let s := initialize_interface env s
    if s.isInit then
      let s := setDisabled .recCheck true s
      let s := setDisabled .streamFromCheck true s
      let s := setDisabled .recToPclDataCheck true s
      let s := setText .takeOpImagesButton "Stop Taking Long Images" s
      take_long_images s
    else s
  else
    let s := shutdown_interface env s
    let s := setDisabled .recCheck false s
    let s := setDisabled .streamFromCheck false s
    let s := setDisabled .recToPclDataCheck false s
    setText .takeOpImagesButton "Start Taking Long Images" s

/-- `ScannerWidget::slot_take_one_long_image`. -/
def slot_take_one_long_image (env : Env) (s : State) : State :=
  let s := reloadSettings env s
  let s := initialize_interface env s
  let s :=
    if s.isInit then
      let s := setDisabled .recCheck true s
      let s := setDisabled .streamFromCheck true s
      let s := setDisabled .recToPclDataCheck true s
      let s := take_one_long_image s
      let s := setDisabled .recCheck false s
      let s := setDisabled .streamFromCheck false s
      let s := setDisabled .recToPclDataCheck false s
      sleep_for 1000 s
    else s
  shutdown_interface env s

/-- `ScannerWidget::slot_save_long_image_data`. -/
def slot_save_long_image_data (s : State) : State :=
  save_long_image_data s

/-- `ScannerWidget::slot_perform_reconstruction`. -/
def slot_perform_reconstruction (env : Env) (s : State) : State :=
  let s := reloadSettings env s
  call .reconPerformReconstruction s

/-! ## Button presses as a transition system -/

/-- The three start/stop buttons. -/
inductive Toggle where
  | stream
  | rotation
  | longImages
  deriving DecidableEq, Repr

/-- The slot a toggle button's `clicked()` is connected to (lines 84-86). -/
def Toggle.slot : Toggle → Env → State → State
  | .stream => slot_start_stream
  | .rotation => slot_start_rotation_stream
  | .longImages => slot_take_long_images

/-- The button a toggle handler relabels. -/
def Toggle.button : Toggle → Button
  | .stream => .initButton
  | .rotation => .takeImagesButton
  | .longImages => .takeOpImagesButton

/-- The label a toggle handler sets when it has started its capture mode. -/
def Toggle.stopText : Toggle → String
  | .stream => "Stop Stream"
  | .rotation => "Stop Rotation Stream"
  | .longImages => "Stop Taking Long Images"

/-- The label a toggle handler sets when it has shut the interface down. -/
def Toggle.startText : Toggle → String
  | .stream => "Start Stream"
  | .rotation => "Start Rotation Stream"
  | .longImages => "Start Taking Long Images"

/-- The capture call a toggle handler makes on the sensor interface. -/
def Toggle.capture : Toggle → Event
  | .stream => .start_stream
  | .rotation => .start_rotation_stream
  | .longImages => .take_long_images

/-- The buttons of the main interface that drive the sensor and the reconstruction. -/
inductive Press where
  | startStream
  | startRotationStream
  | takeLongImages
  | takeOneLongImage
  | performReconstruction
  deriving DecidableEq, Repr

/-- The slot run by a press (the `connect(..., SIGNAL(clicked()), ...)` lines 84-87
and 102). -/
def press (env : Env) : Press → State → State
  | .startStream => slot_start_stream env
  | .startRotationStream => slot_start_rotation_stream env
  | .takeLongImages => slot_take_long_images env
  | .takeOneLongImage => slot_take_one_long_image env
  | .performReconstruction => slot_perform_reconstruction env

/-- A sequence of presses, first one first. -/
def run (env : Env) (ps : List Press) (s : State) : State :=
  ps.foldl (fun s p => press env p s) s

/-- The widget as its constructor leaves it (`initializeOpenDialogInterface`): only
the two project buttons exist, no project is open. -/
def constructed (disk : String → Store) : State where
  settingsPath := ""
  settings := fun _ => .invalid
  disk := disk
  isInit := false
  text := fun b =>
    match b with
    | .makeProjectButton => "Make Project"
    | .openProjectButton => "Open Project"
    | _ => ""
  enabled := fun _ => true
  checked := fun _ => false
  windowTitle := "No project opened..."
  debugInterface := false
  trace := []

/-- A freshly opened project: the constructor followed by `slot_open_project` on
the chosen settings file. -/
def freshProject (env : Env) (path : String) (disk : String → Store) : State :=
  slot_open_project env path (constructed disk)

/-- Whether an event is a call on the sensor interface object's own operations
or the blocking pause. -/
def Event.isSensorCall : Event → Bool
  | .initialize_interface => true
  | .shutdown_interface => true
  | .start_stream => true
  | .start_rotation_stream => true
  | .take_long_images => true
  | .take_one_long_image => true
  | .save_long_image_data => true
  | .sleep_for _ => true
  | _ => false

/-! ## Project scaffold (`slot_make_project`, lines 216-249) -/

/-- Results of the file system operations `slot_make_project` performs. -/
structure FsOutcomes where
  /-- `QDir(makeProjectPath).exists()` -/
  projectDirExists : Bool
  /-- `QDir(makeProjectPath).mkdir(".")` -/
  projectDirMkdir : Bool
  /-- `tools::copyRecursively("./default_project/calibration", <project>/calibration)` -/
  calibrationCopy : Bool
  /-- `QDir(<project>/stream).exists()` -/
  streamDirExists : Bool
  /-- `QDir(<project>/stream).mkdir(".")` -/
  streamDirMkdir : Bool
  /-- `QDir(<project>/pcd).exists()` -/
  pcdDirExists : Bool
  /-- `QDir(<project>/pcd).mkdir(".")` -/
  pcdDirMkdir : Bool
  /-- `QFile("./default_project/project.ini").exists()` -/
  templateIniExists : Bool
  /-- `projectFile.copy(<project>/project.ini)` -/
  iniCopy : Bool

/-- A file system operation attempted by `slot_make_project`. -/
inductive FsOp where
  | dirExists (path : String)
  | mkdir (path : String)
  | copyRecursively (src dst : String)
  | fileExists (path : String)
  | fileCopy (src dst : String)
  deriving DecidableEq, Repr

/-- A line written to `qDebug()`. -/
inductive Diag where
  /-- `qDebug() << "Cannot create:" << path` -/
  | cannotCreate (path : String)
  /-- `qDebug() << "Error: Default project does not exists!"` -/
  | defaultProjectMissing
  deriving DecidableEq, Repr

/-- What `slot_make_project` has done so far: operations attempted and lines logged. -/
structure MakeLog where
  ops : List FsOp
  log : List Diag
  deriving DecidableEq, Repr

/-- Record an attempted operation. -/
def MakeLog.op (o : FsOp) (m : MakeLog) : MakeLog :=
  { m with ops := m.ops ++ [o] }

/-- Record a diagnostic line. -/
def MakeLog.qDebug (d : Diag) (m : MakeLog) : MakeLog :=
  { m with log := m.log ++ [d] }

/-- The condition `!dir.exists() && !dir.mkdir(".")` for `dir = QDir(path)`; the
`mkdir` is only attempted when the directory does not exist. -/
def notExistsAndNotMkdir (path : String) (existsResult mkdirResult : Bool) (m : MakeLog) :
    Bool × MakeLog :=
  let m := m.op (.dirExists path)
  if !existsResult then (!mkdirResult, m.op (.mkdir path))
  else (false, m)

/-- `ScannerWidget::slot_make_project`, given the directory the dialog returned. -/
def slot_make_project (makeProjectPath : String) (o : FsOutcomes) : MakeLog :=
  let m : MakeLog := { ops := [], log := [] }
  if makeProjectPath.isEmpty = false then
    let (failed, m) := notExistsAndNotMkdir makeProjectPath o.projectDirExists o.projectDirMkdir m
    let m := if failed then m.qDebug (.cannotCreate makeProjectPath) else m
    let m := m.op (.copyRecursively "./default_project/calibration" (makeProjectPath ++ "/calibration"))
    let m := if !o.calibrationCopy then m.qDebug (.cannotCreate (makeProjectPath ++ "/calibration")) else m
    let (failed, m) :=
      notExistsAndNotMkdir (makeProjectPath ++ "/stream") o.streamDirExists o.streamDirMkdir m
    let m := if failed then m.qDebug (.cannotCreate (makeProjectPath ++ "/stream")) else m
    let (failed, m) :=
      notExistsAndNotMkdir (makeProjectPath ++ "/pcd") o.pcdDirExists o.pcdDirMkdir m
    let m := if failed then m.qDebug (.cannotCreate (makeProjectPath ++ "/pcd")) else m
    let m := m.op (.fileExists "./default_project/project.ini")
    if o.templateIniExists then
      m.op (.fileCopy "./default_project/project.ini" (makeProjectPath ++ "/project.ini"))
    else
      m.qDebug .defaultProjectMissing
  else m

/-! ## Concrete inputs used in the examples below -/

/-- An environment in which initialisation succeeds and shutdown clears `isInit()`. -/
def envOk : Env := { initSucceeds := true, initAfterShutdown := false, lowerBound := 0, upperBound := 0 }

/-- An environment in which initialisation fails. -/
def envFail : Env := { initSucceeds := false, initAfterShutdown := false, lowerBound := 0, upperBound := 0 }

/-- A disk on which no settings file has any key. -/
def emptyDisk : String → Store := fun _ _ => .invalid

/-- A project opened from `p.ini` on an empty disk. -/
def demo : State := freshProject envOk "p.ini" emptyDisk

/-! ## Relations used to state the results -/

/-- Whether an event is a call on the settings object. -/
def Event.isSettingsCall : Event → Bool
  | .newSettings _ => true
  | .setValue _ _ => true
  | .sync => true
  | _ => false

/-- `s'` is `s` after a step that only worked on the settings and the checked state of
check boxes: button texts, enabled states and `isInit()` are as before, and the
calls `r` it added to the trace are all calls on the settings object. -/
def Quiet (s s' : State) : Prop :=
  s'.text = s.text ∧ s'.enabled = s.enabled ∧ s'.isInit = s.isInit ∧
    ∃ r, s'.trace = s.trace ++ r ∧ ∀ e ∈ r, e.isSettingsCall = true

/-- What it means for a check box slot to write its state through to `key`: the
calls it makes are one `setValue` of `key` with the boolean `state != Unchecked`
followed by one `sync`; in memory only `key` changes; afterwards the file at
`settingsPath` holds what is in memory (other files are as before); nothing else
of the widget changes. -/
def WritesThrough (slot : Int → State → State) (key : String) : Prop :=
  ∀ (state : Int) (s : State),
    newCalls s (slot state s) = [.setValue key (.bool (state != Qt.Unchecked)), .sync] ∧
    (∀ k, (slot state s).settings k =
      if k = key then .bool (state != Qt.Unchecked) else s.settings k) ∧
    (slot state s).disk (slot state s).settingsPath = (slot state s).settings ∧
    (∀ p, (slot state s).disk p =
      if p = s.settingsPath then (slot state s).settings else s.disk p) ∧
    (slot state s).settingsPath = s.settingsPath ∧
    (slot state s).isInit = s.isInit ∧ (slot state s).text = s.text ∧
    (slot state s).enabled = s.enabled ∧ (slot state s).checked = s.checked ∧
    (slot Qt.Checked s).settings key = .bool true ∧
    (slot Qt.PartiallyChecked s).settings key = .bool true ∧
    (slot Qt.Unchecked s).settings key = .bool false

/-- The five keys written by the check box slots. -/
def streamKeys : List String :=
  ["STREAM_SETTINGS/ENABLE_STREAM_RECORDING", "STREAM_SETTINGS/ENABLE_REPLAY_RECORD_STREAM",
   "STREAM_SETTINGS/ENABLE_CONVERT_TO_PCD", "STREAM_SETTINGS/ENABLE_UNDISTORTION",
   "STREAM_SETTINGS/ENABLE_BILATERAL_FILTER"]

/-- The check boxes in the order `initializeMainInterfaceSettings` loads them. -/
def loadOrder : List CheckBox :=
  [.recCheck, .streamFromCheck, .recToPclDataCheck, .undistCheck, .bilateralCheck,
   .reconstructCheck, .undistrtionCheck, .bilateralFilterCheck, .statFilterCheck,
   .mlsFilterCheck]

/-- One line of `initializeMainInterfaceSettings`: the box is set to the boolean
reading of its key. -/
def loadCheckBox (s : State) (c : CheckBox) : State :=
  setChecked c (value (settingsKey c) s).toBool s

/-- The store of `s'` holds the values of the store of `s`: every key has the value
it had, or, for one of the five stream keys, the boolean its old value reads as. -/
def SameValues (s s' : State) : Prop :=
  ∀ k, s'.settings k = s.settings k ∨
    (k ∈ streamKeys ∧ s'.settings k = .bool (s.settings k).toBool)

/-- The operations of one directory step: the existence test, and the `mkdir` when
the directory was not there. -/
def dirStepOps (path : String) (existsResult : Bool) : List FsOp :=
  if existsResult then [.dirExists path] else [.dirExists path, .mkdir path]

/-- A directory step failed: the directory does not exist and `mkdir` failed. -/
def dirStepFailed (existsResult mkdirResult : Bool) : Bool :=
  !existsResult && !mkdirResult

/-- The diagnostic `d` when `failed`, nothing otherwise. -/
def diagIf (failed : Bool) (d : Diag) : List Diag :=
  if failed then [d] else []

/-- The number of scaffold steps that failed in a way the code reports. -/
def reportedFailures (o : FsOutcomes) : Nat :=
  (dirStepFailed o.projectDirExists o.projectDirMkdir).toNat + (!o.calibrationCopy).toNat +
    (dirStepFailed o.streamDirExists o.streamDirMkdir).toNat +
    (dirStepFailed o.pcdDirExists o.pcdDirMkdir).toNat + (!o.templateIniExists).toNat

/-- Toggling check box `c` is not persisted: the box flips, and neither the store in
memory nor any file changes, and no call is made. -/
def NotPersisted (c : CheckBox) : Prop :=
  ∀ s : State, (toggle c s).checked c = !s.checked c ∧ (toggle c s).settings = s.settings ∧
    (toggle c s).disk = s.disk ∧ (toggle c s).trace = s.trace

/-- Whether `initializeMainInterface` connects a slot to the box's `stateChanged`. -/
def hasSlot (c : CheckBox) : Bool :=
  (stateChangedSlot c).isSome

/-- A settings file that stores `1` under the stream recording key and nothing else. -/
def oneDisk : String → Store :=
  fun _ k => if k = "STREAM_SETTINGS/ENABLE_STREAM_RECORDING" then .str "1" else .invalid

/-- The state `slot_open_project` has reached on `oneDisk` when it is about to call
`initializeMainInterfaceSettings` (line 263): the settings are read, the widgets
are new, `recCheck` is unchecked and its key holds the string `1`. -/
def storedOne : State :=
  let s := { constructed oneDisk with settingsPath := "p.ini" }
  let s := initializeSettings envOk s
  let s := initializeReconstruction s
  let s := { s with windowTitle := "Project: " ++ (value "PROJECT_SETTINGS/NAME" s).toString }
  initializeMainInterface s

/-- A state in which `recCheck` is checked while its key is missing from the store. -/
def checkedNoKey : State :=
  { demo with checked := Function.update demo.checked .recCheck true }

/-! ## Basic facts about the trace -/

theorem newCalls_append (s s' : State) (r : List Event) (h : s'.trace = s.trace ++ r) :
    newCalls s s' = r := by
  simp [newCalls, h]

theorem Quiet.nil (s : State) : Quiet s s :=
  ⟨rfl, rfl, rfl, [], by simp, by simp⟩

theorem Quiet.append {a b c : State} (h₁ : Quiet a b) (h₂ : Quiet b c) : Quiet a c := by
  obtain ⟨t₁, e₁, i₁, r₁, hr₁, q₁⟩ := h₁
  obtain ⟨t₂, e₂, i₂, r₂, hr₂, q₂⟩ := h₂
  refine ⟨t₂.trans t₁, e₂.trans e₁, i₂.trans i₁, r₁ ++ r₂, by simp [hr₂, hr₁], ?_⟩
  intro e he
  rcases List.mem_append.mp he with h | h
  · exact q₁ e h
  · exact q₂ e h

theorem quiet_setValue (k : String) (v : QVariant) (s : State) : Quiet s (setValue k v s) :=
  ⟨rfl, rfl, rfl, [.setValue k v], rfl, by simp [Event.isSettingsCall]⟩

theorem quiet_sync (s : State) : Quiet s (sync s) :=
  ⟨rfl, rfl, rfl, [.sync], rfl, by simp [Event.isSettingsCall]⟩

theorem quiet_setChecked (c : CheckBox) (b : Bool) (s : State) : Quiet s (setChecked c b s) := by
  unfold setChecked
  split
  · exact Quiet.nil s
  · have h0 : Quiet s { s with checked := Function.update s.checked c b } :=
      ⟨rfl, rfl, rfl, [], by simp, by simp⟩
    refine h0.append ?_
    cases c <;> simp only [emitStateChanged, stateChangedSlot, slot_record_stream,
      slot_replay_recording, slot_record_pcd, slot_use_undistortion, slot_use_bilateral]
    all_goals first
      | exact Quiet.nil _
      | exact (quiet_setValue _ _ _).append (quiet_sync _)

theorem quiet_initializeMainInterfaceSettings (s : State) :
    Quiet s (initializeMainInterfaceSettings s) := by
  unfold initializeMainInterfaceSettings
  exact (quiet_setChecked _ _ _).append <| (quiet_setChecked _ _ _).append <|
    (quiet_setChecked _ _ _).append <| (quiet_setChecked _ _ _).append <|
    (quiet_setChecked _ _ _).append <| (quiet_setChecked _ _ _).append <|
    (quiet_setChecked _ _ _).append <| (quiet_setChecked _ _ _).append <|
    (quiet_setChecked _ _ _).append <| (quiet_setChecked _ _ _)

theorem quiet_initializeSettings (env : Env) (s : State) :
    Quiet s (initializeSettings env s) := by
  have h0 : Quiet s (call (.newSettings s.settingsPath) { s with settings := s.disk s.settingsPath }) :=
    ⟨rfl, rfl, rfl, [.newSettings s.settingsPath], rfl, by simp [Event.isSettingsCall]⟩
  unfold initializeSettings
  simp only []
  split
  · exact h0.append <| (quiet_setValue _ _ _).append <| (quiet_setValue _ _ _).append (quiet_sync _)
  · exact h0

/-- The calls of `reloadSettings`: settings calls, then the sensor interface object is
discarded (with whatever `isInit()` it had) and replaced, the reconstruction
interface reloads, then settings calls again.  Texts and enabled states are kept. -/
theorem reloadSettings_calls (env : Env) (s : State) :
    (reloadSettings env s).text = s.text ∧ (reloadSettings env s).enabled = s.enabled ∧
    (reloadSettings env s).isInit = false ∧
    ∃ r₁ r₂, (∀ e ∈ r₁, e.isSettingsCall = true) ∧ (∀ e ∈ r₂, e.isSettingsCall = true) ∧
      (reloadSettings env s).trace = s.trace ++ (r₁ ++ [Event.deleteLater s.isInit,
        Event.newOpenNiInterface, Event.reconReloadSettings] ++ r₂) := by
  obtain ⟨t₁, e₁, i₁, r₁, hr₁, q₁⟩ := quiet_initializeSettings env s
  obtain ⟨t₂, e₂, i₂, r₂, hr₂, q₂⟩ := quiet_initializeMainInterfaceSettings
    (call .reconReloadSettings (newOpenNiInterface
      (call (.deleteLater (initializeSettings env s).isInit) (initializeSettings env s))))
  refine ⟨?_, ?_, ?_, r₁, r₂, q₁, q₂, ?_⟩
  · exact t₂.trans t₁
  · exact e₂.trans e₁
  · exact i₂
  · unfold reloadSettings
    simp only []
    rw [hr₂]
    simp [call, newOpenNiInterface, hr₁, i₁]

theorem settingsCall_not_sensorCall (e : Event) (h : e.isSettingsCall = true) :
    e.isSensorCall = false := by
  cases e <;> simp_all [Event.isSettingsCall, Event.isSensorCall]

theorem quiet_reloadSettings (env : Env) (s : State) :
    (reloadSettings env s).text = s.text ∧ (reloadSettings env s).enabled = s.enabled ∧
    ∃ r, (reloadSettings env s).trace = s.trace ++ r ∧ ∀ e ∈ r, e.isSensorCall = false := by
  obtain ⟨ht, he, _, r₁, r₂, q₁, q₂, hr⟩ := reloadSettings_calls env s
  refine ⟨ht, he, _, hr, fun e h => ?_⟩
  simp only [List.mem_append, List.mem_cons, List.mem_singleton, List.not_mem_nil,
    or_false] at h
  rcases h with (h | h | h | h) | h
  · exact settingsCall_not_sensorCall e (q₁ e h)
  · subst h; rfl
  · subst h; rfl
  · subst h; rfl
  · exact settingsCall_not_sensorCall e (q₂ e h)

/-! ## The calls made by one press -/

theorem trace_eq_append_newCalls (s s' : State) (r : List Event) (h : s'.trace = s.trace ++ r) :
    s'.trace = s.trace ++ newCalls s s' := by
  rw [newCalls_append s s' r h, h]

/-- The calls of a toggle press, in closed form. -/
theorem toggle_newCalls (t : Toggle) (env : Env) (s : State) :
    (t.slot env s).trace = s.trace ++ newCalls s (t.slot env s) ∧
    newCalls s (t.slot env s) =
      if s.isInit then [Event.shutdown_interface]
      else if env.initSucceeds then
        newCalls s (reloadSettings env s) ++ [Event.initialize_interface, t.capture]
      else newCalls s (reloadSettings env s) ++ [Event.initialize_interface] := by
  obtain ⟨_, _, r, hr, _⟩ := quiet_reloadSettings env s
  rw [newCalls_append _ _ _ hr]
  have key : ∀ l, (t.slot env s).trace = s.trace ++ l →
      (t.slot env s).trace = s.trace ++ newCalls s (t.slot env s) ∧
        newCalls s (t.slot env s) = l :=
    fun l hl => ⟨trace_eq_append_newCalls _ _ _ hl, newCalls_append _ _ _ hl⟩
  cases hI : s.isInit <;> cases hS : env.initSucceeds <;>
    simp only [Bool.false_eq_true, if_false, if_true] <;> apply key <;> cases t <;>
    simp [Toggle.slot, slot_start_stream, slot_start_rotation_stream, slot_take_long_images,
      hI, hS, setText, setDisabled, initialize_interface, shutdown_interface, call, hr,
      Toggle.capture, start_stream, start_rotation_stream, take_long_images]

/-- The calls of a press of "Take One Long Image", in closed form. -/
theorem take_one_newCalls (env : Env) (s : State) :
    (slot_take_one_long_image env s).trace =
      s.trace ++ newCalls s (slot_take_one_long_image env s) ∧
    newCalls s (slot_take_one_long_image env s) =
      if env.initSucceeds then
        newCalls s (reloadSettings env s) ++ [Event.initialize_interface,
          Event.take_one_long_image, Event.sleep_for 1000, Event.shutdown_interface]
      else
        newCalls s (reloadSettings env s) ++ [Event.initialize_interface,
          Event.shutdown_interface] := by
  obtain ⟨_, _, r, hr, _⟩ := quiet_reloadSettings env s
  rw [newCalls_append _ _ _ hr]
  have key : ∀ l, (slot_take_one_long_image env s).trace = s.trace ++ l →
      (slot_take_one_long_image env s).trace =
          s.trace ++ newCalls s (slot_take_one_long_image env s) ∧
        newCalls s (slot_take_one_long_image env s) = l :=
    fun l hl => ⟨trace_eq_append_newCalls _ _ _ hl, newCalls_append _ _ _ hl⟩
  cases hS : env.initSucceeds <;>
    simp only [Bool.false_eq_true, if_false, if_true] <;> apply key <;>
    simp [slot_take_one_long_image, hS, setDisabled, initialize_interface, shutdown_interface,
      call, hr, take_one_long_image, sleep_for]

theorem reload_no_sensor_call (env : Env) (s : State) :
    ∀ e ∈ newCalls s (reloadSettings env s), e.isSensorCall = false := by
  obtain ⟨_, _, r, hr, hq⟩ := quiet_reloadSettings env s
  rw [newCalls_append _ _ _ hr]
  exact hq

/-! ## C1: the contract of the three start/stop handlers -/

/-- C1. For each of the three toggle handlers and every widget state: when the sensor
interface is initialised the press makes the single call `shutdown_interface`,
enables `recCheck`, `streamFromCheck` and `recToPclDataCheck` and sets the
handler's own button to its "Start ..." label; when it is not initialised the
press reloads the settings (no sensor call in there) and calls
`initialize_interface`, after which, if `isInit()` is true, the three check boxes
are disabled, the button gets its "Stop ..." label and the handler's own capture
call is made, and if `isInit()` is false nothing else is called and no button
text and no enabled state has changed. -/
theorem toggle_press_contract (t : Toggle) (env : Env) (s : State) :
    (t.slot env s).trace = s.trace ++ newCalls s (t.slot env s) ∧
    (s.isInit = true →
      newCalls s (t.slot env s) = [Event.shutdown_interface] ∧
      (∀ c, (t.slot env s).enabled c =
        if c = .recCheck ∨ c = .streamFromCheck ∨ c = .recToPclDataCheck then true
        else s.enabled c) ∧
      (∀ b, (t.slot env s).text b = if b = t.button then t.startText else s.text b)) ∧
    (s.isInit = false →
      (∀ e ∈ newCalls s (reloadSettings env s), e.isSensorCall = false) ∧
      ((initialize_interface env (reloadSettings env s)).isInit = true →
        newCalls s (t.slot env s) =
          newCalls s (reloadSettings env s) ++ [Event.initialize_interface, t.capture] ∧
        (∀ c, (t.slot env s).enabled c =
          if c = .recCheck ∨ c = .streamFromCheck ∨ c = .recToPclDataCheck then false
          else s.enabled c) ∧
        (∀ b, (t.slot env s).text b = if b = t.button then t.stopText else s.text b)) ∧
      ((initialize_interface env (reloadSettings env s)).isInit = false →
        newCalls s (t.slot env s) =
          newCalls s (reloadSettings env s) ++ [Event.initialize_interface] ∧
        (t.slot env s).enabled = s.enabled ∧ (t.slot env s).text = s.text)) := by
  refine ⟨(toggle_newCalls t env s).1, ?_⟩
  obtain ⟨ht, he, r, hr, hq⟩ := quiet_reloadSettings env s
  have hn : newCalls s (reloadSettings env s) = r := newCalls_append _ _ _ hr
  rw [hn]
  refine ⟨fun h => ?_, fun h => ⟨hq, fun hi => ?_, fun hi => ?_⟩⟩
  · cases t <;>
      simp only [Toggle.slot, slot_start_stream, slot_start_rotation_stream,
        slot_take_long_images, h, Bool.not_true, Bool.false_eq_true, if_false] <;>
      refine ⟨newCalls_append _ _ _ (by simp [setText, setDisabled, shutdown_interface, call]),
        fun c => ?_, fun b => ?_⟩ <;>
      first
        | (cases c <;> simp [setText, setDisabled, shutdown_interface, call, Function.update])
        | (cases b <;> simp [setText, setDisabled, shutdown_interface, call, Function.update,
            Toggle.button, Toggle.startText])
  · cases t <;>
      simp only [Toggle.slot, slot_start_stream, slot_start_rotation_stream,
        slot_take_long_images, h, Bool.not_false, if_true, hi] <;>
      refine ⟨newCalls_append _ _ _
          (by simp [setText, setDisabled, initialize_interface, call, hr, Toggle.capture,
            start_stream, start_rotation_stream, take_long_images]),
        fun c => ?_, fun b => ?_⟩ <;>
      first
        | (cases c <;>
            simp [setText, setDisabled, initialize_interface, call, Function.update, he,
              start_stream, start_rotation_stream, take_long_images])
        | (cases b <;>
            simp [setText, setDisabled, initialize_interface, call, Function.update, ht,
              Toggle.button, Toggle.stopText, start_stream, start_rotation_stream,
              take_long_images])
  · cases t <;>
      simp only [Toggle.slot, slot_start_stream, slot_start_rotation_stream,
        slot_take_long_images, h, Bool.not_false, if_true, hi, Bool.false_eq_true, if_false] <;>
      exact ⟨newCalls_append _ _ _ (by simp [initialize_interface, call, hr]),
        by simp [initialize_interface, call, he], by simp [initialize_interface, call, ht]⟩

/-- C1 at concrete inputs: a press of "Start Stream" on an initialised interface only
shuts down; on a fresh project with initialisation succeeding it ends with
`initialize_interface, start_stream`; with initialisation failing it ends with
`initialize_interface` and the texts are untouched. -/
theorem toggle_press_contract_witness :
    newCalls { demo with isInit := true } (slot_start_stream envOk { demo with isInit := true })
      = [Event.shutdown_interface] ∧
    newCalls demo (slot_start_stream envOk demo) =
      newCalls demo (reloadSettings envOk demo) ++
        [Event.initialize_interface, Event.start_stream] ∧
    (slot_start_stream envFail demo).text = demo.text :=
  ⟨((toggle_press_contract .stream envOk { demo with isInit := true }).2.1 rfl).1,
   (((toggle_press_contract .stream envOk demo).2.2 rfl).2.1 rfl).1,
   (((toggle_press_contract .stream envFail demo).2.2 rfl).2.2 rfl).2.2⟩

/-! ## C2: button labels across presses -/

/-- C2 does not hold of the code.  On a fresh project, with initialisation succeeding
and shutdown clearing `isInit()`: after "Start Stream" then "Start Rotation
Stream" the second press has shut the interface down, yet `initButton` still
reads "Stop Stream"; the same after "Start Stream" then "Perform
Reconstruction", where the interface has been replaced by a new one. -/
theorem stop_label_without_initialised_interface :
    (run envOk [.startStream, .startRotationStream] demo).isInit = false ∧
    (run envOk [.startStream, .startRotationStream] demo).text .initButton = "Stop Stream" ∧
    (run envOk [.startStream, .performReconstruction] demo).isInit = false ∧
    (run envOk [.startStream, .performReconstruction] demo).text .initButton = "Stop Stream" := by
  decide

/-! ## C3: the five check box slots write through -/

/-- C3. Each of the five check box handlers, for every integer state, writes exactly
its own key with the boolean `state != Unchecked` (true for `Checked` and
`PartiallyChecked`, false for `Unchecked`), leaves every other key unchanged and
ends with a `sync`, after which the file on disk equals the store in memory. -/
theorem checkbox_slots_write_through :
    WritesThrough slot_record_stream "STREAM_SETTINGS/ENABLE_STREAM_RECORDING" ∧
    WritesThrough slot_replay_recording "STREAM_SETTINGS/ENABLE_REPLAY_RECORD_STREAM" ∧
    WritesThrough slot_record_pcd "STREAM_SETTINGS/ENABLE_CONVERT_TO_PCD" ∧
    WritesThrough slot_use_undistortion "STREAM_SETTINGS/ENABLE_UNDISTORTION" ∧
    WritesThrough slot_use_bilateral "STREAM_SETTINGS/ENABLE_BILATERAL_FILTER" := by
  refine ⟨?_, ?_, ?_, ?_, ?_⟩ <;> intro state s <;>
    refine ⟨newCalls_append _ _ _ (by simp [slot_record_stream, slot_replay_recording,
        slot_record_pcd, slot_use_undistortion, slot_use_bilateral, sync, setValue, call]),
      fun k => ?_, ?_, fun p => ?_, rfl, rfl, rfl, rfl, rfl, ?_, ?_, ?_⟩ <;>
    simp [slot_record_stream, slot_replay_recording, slot_record_pcd, slot_use_undistortion,
      slot_use_bilateral, sync, setValue, call, Function.update, Qt.Checked,
      Qt.PartiallyChecked, Qt.Unchecked]

/-! ## C4: the pipeline check boxes -/

/-- C4 does not hold of the code: `initializeMainInterface` connects no slot to
`reconstructCheck`, `undistrtionCheck`, `bilateralFilterCheck`, `statFilterCheck`
and `mlsFilterCheck`, so toggling one of them flips the box and writes nothing,
whereas toggling a stream check box (here `undistCheck` on a fresh project)
stores the new value under its key. -/
theorem pipeline_checkboxes_not_persisted :
    NotPersisted .reconstructCheck ∧ NotPersisted .undistrtionCheck ∧
    NotPersisted .bilateralFilterCheck ∧ NotPersisted .statFilterCheck ∧
    NotPersisted .mlsFilterCheck ∧
    (toggle .undistrtionCheck demo).checked .undistrtionCheck = true ∧
    (toggle .undistrtionCheck demo).settings (settingsKey .undistrtionCheck) = .invalid ∧
    (toggle .undistCheck demo).settings (settingsKey .undistCheck) = .bool true := by
  refine ⟨?_, ?_, ?_, ?_, ?_, by decide, by decide, by decide⟩ <;> intro s <;>
    simp [toggle, setChecked, emitStateChanged, stateChangedSlot]

/-! ## C5: the single-shot capture -/

/-- C5. Every run of `slot_take_one_long_image` adds to the trace: the calls of
`reloadSettings` (none of them a sensor call or a pause), `initialize_interface`,
then, when `isInit()` is true, `take_one_long_image` followed by one pause of
1000 ms, and last `shutdown_interface`; when `isInit()` is false there is no
capture and no pause and `shutdown_interface` is still called. -/
theorem take_one_long_image_call_order (env : Env) (s : State) :
    (slot_take_one_long_image env s).trace =
      s.trace ++ newCalls s (slot_take_one_long_image env s) ∧
    (∀ e ∈ newCalls s (reloadSettings env s), e.isSensorCall = false) ∧
    (newCalls s (slot_take_one_long_image env s)).getLast? = some Event.shutdown_interface ∧
    ((initialize_interface env (reloadSettings env s)).isInit = true →
      newCalls s (slot_take_one_long_image env s) =
        newCalls s (reloadSettings env s) ++ [Event.initialize_interface,
          Event.take_one_long_image, Event.sleep_for 1000, Event.shutdown_interface]) ∧
    ((initialize_interface env (reloadSettings env s)).isInit = false →
      newCalls s (slot_take_one_long_image env s) =
        newCalls s (reloadSettings env s) ++ [Event.initialize_interface,
          Event.shutdown_interface]) := by
  obtain ⟨h₁, h₂⟩ := take_one_newCalls env s
  refine ⟨h₁, reload_no_sensor_call env s, ?_, fun h => ?_, fun h => ?_⟩
  · rw [h₂]; split <;> simp [List.getLast?_append]
  · have h' : env.initSucceeds = true := by simpa [initialize_interface, call] using h
    rw [h₂, if_pos h']
  · have h' : env.initSucceeds = false := by simpa [initialize_interface, call] using h
    rw [h₂, h']; simp

/-- C5 at concrete inputs: on a fresh project the calls after the reload are
`initialize_interface, take_one_long_image, sleep_for 1000, shutdown_interface`
when initialisation succeeds and `initialize_interface, shutdown_interface` when
it fails. -/
theorem take_one_long_image_call_order_witness :
    newCalls demo (slot_take_one_long_image envOk demo) =
      newCalls demo (reloadSettings envOk demo) ++ [Event.initialize_interface,
        Event.take_one_long_image, Event.sleep_for 1000, Event.shutdown_interface] ∧
    newCalls demo (slot_take_one_long_image envFail demo) =
      newCalls demo (reloadSettings envFail demo) ++ [Event.initialize_interface,
        Event.shutdown_interface] :=
  ⟨(take_one_long_image_call_order envOk demo).2.2.2.1 rfl,
   (take_one_long_image_call_order envFail demo).2.2.2.2 rfl⟩

/-! ## C6: the project scaffold -/

/-- C6. For a non-empty chosen directory and every combination of outcomes, the
operations attempted by `slot_make_project` are, in this order, the project
directory step, the calibration copy, the stream directory step, the pcd
directory step and the `project.ini` step, whatever the earlier outcomes were;
the log holds exactly one line for each failed directory creation, for a failed
calibration copy and for a missing template `project.ini`, in that order, and
nothing else; for an empty path nothing is attempted and nothing is logged. -/
theorem make_project_scaffold (makeProjectPath : String) (o : FsOutcomes) :
    (makeProjectPath ≠ "" →
      (slot_make_project makeProjectPath o).ops =
        dirStepOps makeProjectPath o.projectDirExists ++
        [FsOp.copyRecursively "./default_project/calibration" (makeProjectPath ++ "/calibration")] ++
        dirStepOps (makeProjectPath ++ "/stream") o.streamDirExists ++
        dirStepOps (makeProjectPath ++ "/pcd") o.pcdDirExists ++
        [FsOp.fileExists "./default_project/project.ini"] ++
        (if o.templateIniExists then
          [FsOp.fileCopy "./default_project/project.ini" (makeProjectPath ++ "/project.ini")]
         else []) ∧
      (slot_make_project makeProjectPath o).log =
        diagIf (dirStepFailed o.projectDirExists o.projectDirMkdir)
          (Diag.cannotCreate makeProjectPath) ++
        diagIf (!o.calibrationCopy) (Diag.cannotCreate (makeProjectPath ++ "/calibration")) ++
        diagIf (dirStepFailed o.streamDirExists o.streamDirMkdir)
          (Diag.cannotCreate (makeProjectPath ++ "/stream")) ++
        diagIf (dirStepFailed o.pcdDirExists o.pcdDirMkdir)
          (Diag.cannotCreate (makeProjectPath ++ "/pcd")) ++
        diagIf (!o.templateIniExists) Diag.defaultProjectMissing ∧
      (slot_make_project makeProjectPath o).log.length = reportedFailures o) ∧
    (makeProjectPath = "" →
      (slot_make_project makeProjectPath o).ops = [] ∧
      (slot_make_project makeProjectPath o).log = []) := by
  constructor
  · intro h
    have he : makeProjectPath.isEmpty = false := by
      rw [Bool.eq_false_iff]
      exact fun hc => h ((String.isEmpty_iff _).mp hc)
    obtain ⟨a, b, c, d, e, f, g, i, j⟩ := o
    cases a <;> cases b <;> cases c <;> cases d <;> cases e <;> cases f <;> cases g <;>
      cases i <;>
      simp [slot_make_project, he, notExistsAndNotMkdir, MakeLog.op, MakeLog.qDebug,
        dirStepOps, dirStepFailed, diagIf, reportedFailures]
  · rintro rfl
    exact ⟨rfl, rfl⟩

/-- C6 at a concrete input: in `/x` with every operation failing, all five steps are
attempted and five lines are logged. -/
theorem make_project_scaffold_witness :
    (slot_make_project "/x" ⟨false, false, false, false, false, false, false, false, false⟩).log.length
      = 5 ∧
    (slot_make_project "" ⟨false, false, false, false, false, false, false, false, false⟩).ops
      = [] :=
  ⟨((make_project_scaffold "/x" ⟨false, false, false, false, false, false, false, false, false⟩).1
      (by decide)).2.2,
   ((make_project_scaffold "" ⟨false, false, false, false, false, false, false, false, false⟩).2
      rfl).1⟩

/-! ## C7: initialising and shutting down within one press -/

/-- C7, as stated, fails: a press of "Take One Long Image" on a freshly opened project
calls both `initialize_interface` and `shutdown_interface`. -/
theorem take_one_calls_init_and_shutdown :
    Event.initialize_interface ∈ newCalls demo (slot_take_one_long_image envOk demo) ∧
    Event.shutdown_interface ∈ newCalls demo (slot_take_one_long_image envOk demo) := by
  decide

/-- C7, amended. A press of one of the three toggle buttons calls exactly one of
`initialize_interface` (when the interface is not initialised) and
`shutdown_interface` (when it is), once, never both; a press of "Take One Long
Image" calls `initialize_interface` once and `shutdown_interface` once, in every
state. -/
theorem toggle_press_init_xor_shutdown (env : Env) (s : State) :
    (∀ t : Toggle,
      (t.slot env s).trace = s.trace ++ newCalls s (t.slot env s) ∧
      (newCalls s (t.slot env s)).count Event.initialize_interface =
        (if s.isInit then 0 else 1) ∧
      (newCalls s (t.slot env s)).count Event.shutdown_interface =
        (if s.isInit then 1 else 0)) ∧
    (slot_take_one_long_image env s).trace =
      s.trace ++ newCalls s (slot_take_one_long_image env s) ∧
    (newCalls s (slot_take_one_long_image env s)).count Event.initialize_interface = 1 ∧
    (newCalls s (slot_take_one_long_image env s)).count Event.shutdown_interface = 1 := by
  have hq := reload_no_sensor_call env s
  have c₁ : (newCalls s (reloadSettings env s)).count Event.initialize_interface = 0 :=
    List.count_eq_zero.mpr fun h => by simpa [Event.isSensorCall] using hq _ h
  have c₂ : (newCalls s (reloadSettings env s)).count Event.shutdown_interface = 0 :=
    List.count_eq_zero.mpr fun h => by simpa [Event.isSensorCall] using hq _ h
  refine ⟨fun t => ?_, ?_⟩
  · obtain ⟨h₁, h₂⟩ := toggle_newCalls t env s
    refine ⟨h₁, ?_, ?_⟩ <;> rw [h₂] <;>
      cases s.isInit <;> cases env.initSucceeds <;> cases t <;>
      simp [List.count_append, c₁, c₂, Toggle.capture]
  · obtain ⟨h₁, h₂⟩ := take_one_newCalls env s
    refine ⟨h₁, ?_, ?_⟩ <;> rw [h₂] <;> cases env.initSucceeds <;>
      simp [List.count_append, c₁, c₂]

/-! ## C8: what is written back is what is loaded -/

theorem initializeMainInterfaceSettings_eq_foldl (s : State) :
    initializeMainInterfaceSettings s = loadOrder.foldl loadCheckBox s := rfl

theorem SameValues.same (s : State) : SameValues s s := fun _ => Or.inl rfl

theorem SameValues.reading {s s' : State} (h : SameValues s s') (k : String) :
    (s'.settings k).toBool = (s.settings k).toBool := by
  rcases h k with h | ⟨_, h⟩ <;> simp [h, QVariant.toBool]

theorem SameValues.compose {a b c : State} (h₁ : SameValues a b) (h₂ : SameValues b c) :
    SameValues a c := by
  intro k
  rcases h₂ k with h | ⟨hk, h⟩
  · rw [h]; exact h₁ k
  · exact Or.inr ⟨hk, by rw [h, h₁.reading k]⟩

theorem loadCheckBox_spec (s : State) (c : CheckBox) :
    (loadCheckBox s c).checked = Function.update s.checked c (s.settings (settingsKey c)).toBool ∧
    SameValues s (loadCheckBox s c) := by
  unfold loadCheckBox setChecked value
  split
  · rename_i h
    exact ⟨by rw [← h, Function.update_eq_self], SameValues.same s⟩
  · refine ⟨by cases c <;> rfl, fun k => ?_⟩
    cases c <;>
      simp only [emitStateChanged, stateChangedSlot, slot_record_stream, slot_replay_recording,
        slot_record_pcd, slot_use_undistortion, slot_use_bilateral, sync, setValue, call,
        settingsKey, Function.update, eq_rec_constant, dite_eq_ite] <;>
      first
        | exact Or.inl trivial
        | (split
           · rename_i hk
             subst hk
             refine Or.inr ⟨by simp [streamKeys], ?_⟩
             simp only [Qt.Checked, Qt.Unchecked]
             split_ifs with hb <;> simp [hb]
           · exact Or.inl rfl)

theorem foldl_loadCheckBox (l : List CheckBox) (s : State) :
    SameValues s (l.foldl loadCheckBox s) ∧
    ∀ c, (l.foldl loadCheckBox s).checked c =
      if c ∈ l then (s.settings (settingsKey c)).toBool else s.checked c := by
  induction l generalizing s with
  | nil => exact ⟨SameValues.same s, fun c => by simp⟩
  | cons a l ih =>
    obtain ⟨hc, hv⟩ := loadCheckBox_spec s a
    obtain ⟨ihv, ihc⟩ := ih (loadCheckBox s a)
    refine ⟨hv.compose ihv, fun c => ?_⟩
    simp only [List.foldl_cons, ihc, hc, hv.reading, List.mem_cons]
    by_cases h₁ : c ∈ l
    · simp [h₁]
    · by_cases h₂ : c = a
      · subst h₂; simp [h₁]
      · simp [h₁, h₂]

theorem loadCheckBox_settings (s : State) (c : CheckBox) :
    (hasSlot c = true → s.checked c ≠ (s.settings (settingsKey c)).toBool →
      (loadCheckBox s c).settings (settingsKey c) = .bool (s.settings (settingsKey c)).toBool) ∧
    (∀ k, (hasSlot c = true → k = settingsKey c →
        s.checked c = (s.settings (settingsKey c)).toBool) →
      (loadCheckBox s c).settings k = s.settings k) := by
  unfold loadCheckBox setChecked value
  by_cases h : s.checked c = (s.settings (settingsKey c)).toBool
  · rw [if_pos h]
    exact ⟨fun _ hn => absurd h hn, fun _ _ => rfl⟩
  · rw [if_neg h]
    constructor
    · intro _ _
      cases c <;>
        simp [emitStateChanged, stateChangedSlot, slot_record_stream, slot_replay_recording,
          slot_record_pcd, slot_use_undistortion, slot_use_bilateral, sync, setValue, call,
          settingsKey, hasSlot, Qt.Checked, Qt.Unchecked] at * <;>
        split_ifs with hb <;> simp [hb]
    · intro k hk
      have hk' : hasSlot c = true → k ≠ settingsKey c := fun hs he => h (hk hs he)
      cases c <;>
        simp [emitStateChanged, stateChangedSlot, slot_record_stream, slot_replay_recording,
          slot_record_pcd, slot_use_undistortion, slot_use_bilateral, sync, setValue, call,
          settingsKey, hasSlot, Function.update] at * <;>
        simp [hk']

theorem foldl_loadCheckBox_settings (l : List CheckBox) (hl : l.Nodup) (s : State) :
    (∀ c ∈ l, hasSlot c = true → s.checked c ≠ (s.settings (settingsKey c)).toBool →
      (l.foldl loadCheckBox s).settings (settingsKey c) =
        .bool (s.settings (settingsKey c)).toBool) ∧
    (∀ k, (∀ c ∈ l, hasSlot c = true → k = settingsKey c →
        s.checked c = (s.settings (settingsKey c)).toBool) →
      (l.foldl loadCheckBox s).settings k = s.settings k) := by
  induction l generalizing s with
  | nil => exact ⟨fun c hc => by simp at hc, fun k _ => rfl⟩
  | cons a l ih =>
    obtain ⟨ha, hl'⟩ := List.nodup_cons.mp hl
    obtain ⟨hc, hv⟩ := loadCheckBox_spec s a
    obtain ⟨w₁, w₂⟩ := loadCheckBox_settings s a
    obtain ⟨ih₁, ih₂⟩ := ih hl' (loadCheckBox s a)
    have same : ∀ c ∈ l, (loadCheckBox s a).checked c = s.checked c := by
      intro c hcl
      have hne : c ≠ a := fun h => ha (h ▸ hcl)
      rw [hc, Function.update_noteq hne]
    constructor
    · intro c hcm hs hn
      simp only [List.foldl_cons]
      rcases List.mem_cons.mp hcm with rfl | hcl
      · have h₁ := w₁ hs hn
        rcases (foldl_loadCheckBox l (loadCheckBox s c)).1 (settingsKey c) with h | ⟨_, h⟩
        · rw [h, h₁]
        · rw [h, h₁]; simp [QVariant.toBool]
      · have := ih₁ c hcl hs (by rw [same c hcl, hv.reading]; exact hn)
        rw [this, hv.reading]
    · intro k hk
      simp only [List.foldl_cons]
      have h₁ : (loadCheckBox s a).settings k = s.settings k :=
        w₂ k (fun hs he => hk a (List.mem_cons_self a l) hs he)
      rw [← h₁]
      refine ih₂ k (fun c hcl hs he => ?_)
      rw [same c hcl, hv.reading]
      exact hk c (List.mem_cons_of_mem a hcl) hs he

theorem toBool_str_one : (QVariant.str "1").toBool = true := by
  simp [QVariant.toBool, String.toLower, String.map_eq]

theorem storedOne_recording :
    storedOne.settings (settingsKey .recCheck) = .str "1" := by
  decide

/-- On `storedOne` the first line of the loader checks `recCheck`; the other nine
lines follow. -/
theorem load_storedOne :
    initializeMainInterfaceSettings storedOne =
      loadOrder.tail.foldl loadCheckBox (setChecked .recCheck true storedOne) := by
  have h : loadCheckBox storedOne .recCheck = setChecked .recCheck true storedOne := by
    unfold loadCheckBox value
    rw [storedOne_recording, toBool_str_one]
  rw [← h]
  rfl

/-- C8, as stated, fails in its last part: `initializeMainInterfaceSettings` does not
leave the stored values unchanged.  When a project whose file stores the string
`1` under the stream recording key is opened, loading checks `recCheck`, the
connected slot fires and the key is rewritten with the boolean `true` (calls
`setValue`, `sync`); and when `recCheck` is checked while its key is missing,
loading unchecks it and the key is created with `false`. -/
theorem load_rewrites_stored_value :
    storedOne.settings "STREAM_SETTINGS/ENABLE_STREAM_RECORDING" = .str "1" ∧
    (initializeMainInterfaceSettings storedOne).settings
        "STREAM_SETTINGS/ENABLE_STREAM_RECORDING" = .bool true ∧
    newCalls storedOne (initializeMainInterfaceSettings storedOne) =
      [Event.setValue "STREAM_SETTINGS/ENABLE_STREAM_RECORDING" (.bool true), Event.sync] ∧
    checkedNoKey.settings "STREAM_SETTINGS/ENABLE_STREAM_RECORDING" = .invalid ∧
    (initializeMainInterfaceSettings checkedNoKey).settings
        "STREAM_SETTINGS/ENABLE_STREAM_RECORDING" = .bool false := by
  refine ⟨by decide, ?_, ?_, by decide, by decide⟩ <;>
    rw [load_storedOne] <;> decide

/-- C8, amended. Running a stream check box slot with any integer state and then
`initializeMainInterfaceSettings` leaves the slot's check box checked exactly when
`state != Unchecked`; and for every state `initializeMainInterfaceSettings` sets each
of the ten check boxes to the boolean reading of its own key (a missing key reads
false) and, with the connected slots firing, leaves the boolean reading of every
key unchanged: the key of a connected check box whose checked state differs from
the key's reading is rewritten with that reading as a boolean, every other key
keeps its stored value, and when no box changes nothing is written. -/
theorem settings_written_back_are_loaded (state : Int) (s : State) :
    (((initializeMainInterfaceSettings (slot_record_stream state s)).checked .recCheck = true
        ↔ state ≠ Qt.Unchecked) ∧
      ((initializeMainInterfaceSettings (slot_replay_recording state s)).checked .streamFromCheck
        = true ↔ state ≠ Qt.Unchecked) ∧
      ((initializeMainInterfaceSettings (slot_record_pcd state s)).checked .recToPclDataCheck
        = true ↔ state ≠ Qt.Unchecked) ∧
      ((initializeMainInterfaceSettings (slot_use_undistortion state s)).checked .undistCheck
        = true ↔ state ≠ Qt.Unchecked) ∧
      ((initializeMainInterfaceSettings (slot_use_bilateral state s)).checked .bilateralCheck
        = true ↔ state ≠ Qt.Unchecked)) ∧
    (∀ c, (initializeMainInterfaceSettings s).checked c = (s.settings (settingsKey c)).toBool) ∧
    (∀ k, ((initializeMainInterfaceSettings s).settings k).toBool = (s.settings k).toBool) ∧
    (∀ c, hasSlot c = true → s.checked c ≠ (s.settings (settingsKey c)).toBool →
      (initializeMainInterfaceSettings s).settings (settingsKey c) =
        .bool (s.settings (settingsKey c)).toBool) ∧
    (∀ k, (∀ c, hasSlot c = true → k = settingsKey c →
        s.checked c = (s.settings (settingsKey c)).toBool) →
      (initializeMainInterfaceSettings s).settings k = s.settings k) ∧
    SameValues s (initializeMainInterfaceSettings s) ∧
    ((∀ c, s.checked c = (s.settings (settingsKey c)).toBool) →
      (initializeMainInterfaceSettings s).settings = s.settings ∧
      newCalls s (initializeMainInterfaceSettings s) = []) := by
  have key : ∀ s : State, ∀ c,
      (initializeMainInterfaceSettings s).checked c = (s.settings (settingsKey c)).toBool := by
    intro s c
    rw [initializeMainInterfaceSettings_eq_foldl, (foldl_loadCheckBox loadOrder s).2 c]
    cases c <;> simp [loadOrder]
  have all : ∀ c, c ∈ loadOrder := fun c => by cases c <;> simp [loadOrder]
  obtain ⟨x₁, x₂⟩ := foldl_loadCheckBox_settings loadOrder (by decide) s
  refine ⟨⟨?_, ?_, ?_, ?_, ?_⟩, key s, ?_, ?_, ?_, ?_, ?_⟩
  · rw [key]; simp [slot_record_stream, sync, setValue, call, settingsKey, QVariant.toBool]
  · rw [key]; simp [slot_replay_recording, sync, setValue, call, settingsKey, QVariant.toBool]
  · rw [key]; simp [slot_record_pcd, sync, setValue, call, settingsKey, QVariant.toBool]
  · rw [key]; simp [slot_use_undistortion, sync, setValue, call, settingsKey, QVariant.toBool]
  · rw [key]; simp [slot_use_bilateral, sync, setValue, call, settingsKey, QVariant.toBool]
  · rw [initializeMainInterfaceSettings_eq_foldl]
    exact (foldl_loadCheckBox loadOrder s).1.reading
  · rw [initializeMainInterfaceSettings_eq_foldl]
    exact fun c => x₁ c (all c)
  · rw [initializeMainInterfaceSettings_eq_foldl]
    exact fun k hk => x₂ k (fun c _ => hk c)
  · rw [initializeMainInterfaceSettings_eq_foldl]
    exact (foldl_loadCheckBox loadOrder s).1
  · intro h
    have : initializeMainInterfaceSettings s = s := by
      simp [initializeMainInterfaceSettings, setChecked, value, h, settingsKey]
    rw [this]
    exact ⟨rfl, by simp [newCalls]⟩

/-- C8, amended, at a concrete input: opening a project whose file stores the string `1`
under the stream recording key, loading rewrites that key with `true`, checks
`recCheck`, and leaves the pipeline key `PIPELINE_SETTINGS/UNDISTORTION` as it
was; after the slot has run with `PartiallyChecked`, loading leaves `recCheck`
checked. -/
theorem settings_written_back_are_loaded_witness :
    (initializeMainInterfaceSettings storedOne).settings
        "STREAM_SETTINGS/ENABLE_STREAM_RECORDING" = .bool true ∧
    (initializeMainInterfaceSettings storedOne).checked .recCheck = true ∧
    (initializeMainInterfaceSettings storedOne).settings "PIPELINE_SETTINGS/UNDISTORTION" =
      storedOne.settings "PIPELINE_SETTINGS/UNDISTORTION" ∧
    (initializeMainInterfaceSettings (slot_record_stream Qt.PartiallyChecked storedOne)).checked
      .recCheck = true := by
  have differs : storedOne.checked .recCheck ≠ (storedOne.settings (settingsKey .recCheck)).toBool := by
    rw [storedOne_recording, toBool_str_one]
    decide
  have h₁ := (settings_written_back_are_loaded 0 storedOne).2.2.2.1 .recCheck rfl differs
  have h₂ := (settings_written_back_are_loaded 0 storedOne).2.1 .recCheck
  rw [storedOne_recording, toBool_str_one] at h₁ h₂
  exact ⟨h₁, h₂,
    (settings_written_back_are_loaded 0 storedOne).2.2.2.2.1 "PIPELINE_SETTINGS/UNDISTORTION"
      (fun c => by cases c <;> decide),
    (settings_written_back_are_loaded Qt.PartiallyChecked storedOne).1.1.mpr (by decide)⟩

/-! ## C9: discarding the sensor interface -/

theorem toggle_keeps_initialised_interface (t : Toggle) (env : Env) (s : State) :
    Event.deleteLater true ∉ newCalls s (t.slot env s) := by
  obtain ⟨_, _, _, r₁, r₂, q₁, q₂, hr⟩ := reloadSettings_calls env s
  have hn := newCalls_append _ _ _ hr
  have n₁ : Event.deleteLater true ∉ r₁ := fun h => by
    simpa [Event.isSettingsCall] using q₁ _ h
  have n₂ : Event.deleteLater true ∉ r₂ := fun h => by
    simpa [Event.isSettingsCall] using q₂ _ h
  rw [(toggle_newCalls t env s).2, hn]
  cases hI : s.isInit <;> cases env.initSucceeds <;> cases t <;>
    simp [n₁, n₂, Toggle.capture]

/-- C9 does not hold of the code.  On a fresh project, with initialisation succeeding:
after "Start Stream" the interface is initialised, and a press of "Perform
Reconstruction" (or of "Take One Long Image") then runs `reloadSettings`, which
discards that interface while `isInit()` is true; no `shutdown_interface` was
called before the discard.  The three toggle handlers, which test `isInit()`
before they reload, never discard an initialised interface. -/
theorem initialised_interface_discarded :
    (run envOk [.startStream] demo).isInit = true ∧
    newCalls (run envOk [.startStream] demo)
        (press envOk .performReconstruction (run envOk [.startStream] demo)) =
      [Event.newSettings "p.ini", Event.deleteLater true, Event.newOpenNiInterface,
        Event.reconReloadSettings, Event.reconPerformReconstruction] ∧
    Event.shutdown_interface ∉ (run envOk [.startStream, .performReconstruction] demo).trace ∧
    (newCalls (run envOk [.startStream] demo)
        (press envOk .takeOneLongImage (run envOk [.startStream] demo))).take 2 =
      [Event.newSettings "p.ini", Event.deleteLater true] ∧
    (∀ (t : Toggle) (env : Env) (s : State),
      Event.deleteLater true ∉ newCalls s (t.slot env s)) :=
  ⟨by decide, by decide, by decide, by decide, toggle_keeps_initialised_interface⟩

/-! ## C10: start then stop -/

/-- C10 does not hold of the code for `takeOpImagesButton`.  On a fresh project, with
initialisation succeeding, two presses of "Take Long Images" leave the button
reading "Start Taking Long Images" while it was constructed with "Take Long
Images"; two presses of `initButton` or of `takeImagesButton` do restore the
constructed text, and in all three cases the three stream check boxes are
enabled again. -/
theorem long_images_label_not_restored :
    demo.text .takeOpImagesButton = "Take Long Images" ∧
    (run envOk [.takeLongImages, .takeLongImages] demo).text .takeOpImagesButton =
      "Start Taking Long Images" ∧
    (run envOk [.startStream, .startStream] demo).text .initButton = demo.text .initButton ∧
    (run envOk [.startRotationStream, .startRotationStream] demo).text .takeImagesButton =
      demo.text .takeImagesButton ∧
    (∀ p ∈ [Press.startStream, Press.startRotationStream, Press.takeLongImages],
      ∀ c ∈ [CheckBox.recCheck, CheckBox.streamFromCheck, CheckBox.recToPclDataCheck],
        (run envOk [p, p] demo).enabled c = true ∧ demo.enabled c = true) := by
  decide

end ScannerWidget
